import Mathlib

/-!
Verification of the PDF-compression job pipeline of src/bot.js
(`compressPdfAsync`, the `pdf_compression_jobs` table operations, the
Ghostscript command construction, the file cleanup and the webhook
delivery).  The JavaScript is shallowly embedded: the SQLite table is a
list of records, the filesystem a list of (path, size) pairs, external
outcomes (the subprocess, the webhook POST, store failures) are an
environment parameter, and the async function body is a state-passing
function whose thrown exceptions are an `Except` error channel, with the
source's try/catch structure reproduced as an explicit handler.
-/

namespace BaileysPdf

/-- A row of the `pdf_compression_jobs` table (schema in src/bot.js:44-57).
`compression_ratio` (a REAL column holding the `.toFixed(2)` value, which
always has exactly two decimal places) is modelled exactly as that value
in hundredths of a percent, an integer; timestamps are abstract `Nat`
instants. -/
structure JobRecord where
  job_id : String
  webhook_url : String
  original_filename : Option String
  compressed_filename : Option String
  status : String
  original_size : Option Nat
  compressed_size : Option Nat
  compression_ratio : Option ℤ
  error_message : Option String
  completed_at : Option Nat
deriving Repr, DecidableEq

/-- The filesystem: a finite map from paths to file sizes in bytes,
as a list of pairs. -/
abbrev Fs := List (String × Nat)

/-- The JSON body of a webhook POST (success shape bot.js:1160-1171,
error shape bot.js:1223-1227).  `fileData` abstracts the base64 content
by the byte count read from disk. -/
inductive Payload where
  | completedPayload (jobId : String) (originalFilename : Option String)
      (compressedFilename : String) (originalSize : Option Nat)
      (compressedSize : Option Nat) (compressionRatio : Option ℤ)
      (fileData : Nat) (completedAt : Option Nat)
  | failedPayload (jobId : String) (error : String)
deriving Repr, DecidableEq

/-- Observable events of one job run, in program order: record-store
mutations, file unlinks, the subprocess invocation (with the exact
command string) and webhook POST attempts, plus `addLog` calls. -/
inductive Event where
  | log (kind : String) (msg : String)
  | execCmd (cmd : String)
  | dbCompleted (jobId : String)
  | dbFailed (jobId : String)
  | unlink (path : String)
  | webhookPost (url : String) (payload : Payload)
deriving Repr, DecidableEq

/-- Behaviour of the Ghostscript subprocess for this run: exit zero
(optionally creating the output file with a given size), a thrown
error (non-zero exit or spawn failure), or never exiting. -/
inductive ExecBehavior where
  | ok (created : Option Nat)
  | fail (msg : String)
  | hang
deriving Repr, DecidableEq

/-- Outcome of the single webhook `fetch` this run may perform:
a 2xx response, a non-2xx response, or a thrown network error. -/
inductive FetchOutcome where
  | ok2xx (code : Nat)
  | non2xx (code : Nat)
  | throwErr (msg : String)
deriving Repr, DecidableEq

/-- External nondeterminism for one run of `compressPdfAsync`:
the subprocess behaviour, the webhook outcome, and whether the
prepared-statement writes (`.run`) or reads (`.get`) throw. -/
structure Env where
  exec : ExecBehavior
  fetch1 : FetchOutcome
  storeFails : Bool
  lookupFails : Bool
deriving Repr, DecidableEq

/-- The mutable world the run threads: the jobs table, the filesystem,
and the ordered event trace. -/
structure SysState where
  db : List JobRecord
  fs : Fs
  trace : List Event
deriving Repr, DecidableEq

def addTrace (s : SysState) (e : Event) : SysState :=
  { s with trace := s.trace ++ [e] }

/-- `fs.existsSync(p)`. -/
def existsSync (fs : Fs) (p : String) : Bool :=
  (List.find? (fun e => e.1 == p) fs).isSome

/-- Remove every entry at path `p` (the effect of a successful unlink). -/
def removeFile (fs : Fs) (p : String) : Fs :=
  List.filter (fun e => !(e.1 == p)) fs

/-- `fs.statSync(p).size`: throws ENOENT when the path is absent. -/
def statSyncSize (fs : Fs) (p : String) : Except String Nat :=
  match List.find? (fun e => e.1 == p) fs with
  | some e => .ok e.2
  | none => .error ("ENOENT: no such file or directory, stat " ++ p)

/-- `fs.readFileSync(p)` abstracted to the byte count: throws ENOENT
when the path is absent. -/
def readFileSyncSize (fs : Fs) (p : String) : Except String Nat :=
  match List.find? (fun e => e.1 == p) fs with
  | some e => .ok e.2
  | none => .error ("ENOENT: no such file or directory, open " ++ p)

/-- `fs.unlinkSync(p)`: removes the entry, throwing ENOENT when the path
is absent (the unguarded call of bot.js:1149). -/
def unlinkSync (fs : Fs) (p : String) : Except String Fs :=
  if existsSync fs p then .ok (removeFile fs p)
  else .error ("ENOENT: no such file or directory, unlink " ++ p)

/-- The guarded removal idiom of bot.js:1210-1215:
`if (fs.existsSync(p)) fs.unlinkSync(p)`. -/
def guardedUnlink (fs : Fs) (p : String) : Fs :=
  if existsSync fs p then removeFile fs p else fs

/-- Guarded removal threaded through the state, recording the unlink
syscall in the trace when it happens. -/
def guardedUnlinkStep (s : SysState) (p : String) : SysState :=
  if existsSync s.fs p then
    { s with fs := removeFile s.fs p, trace := s.trace ++ [Event.unlink p] }
  else s

/-- The row update performed by the prepared statement of bot.js:1137-1146:
SET status = completed, compressed_filename, compressed_size,
compression_ratio, completed_at WHERE job_id = ?.  No status guard. -/
def updateJobMap (db : List JobRecord) (outputFilename : String)
    (csize : Nat) (ratio : ℤ) (now : Nat) (jobId : String) : List JobRecord :=
  db.map fun r =>
    if r.job_id == jobId then
      { r with status := "completed", compressed_filename := some outputFilename,
               compressed_size := some csize, compression_ratio := some ratio,
               completed_at := some now }
    else r

/-- The row update performed by the prepared statement of bot.js:1200-1207:
SET status = failed, error_message, completed_at WHERE job_id = ?.
No status guard. -/
def updateJobErrorMap (db : List JobRecord) (msg : String) (now : Nat)
    (jobId : String) : List JobRecord :=
  db.map fun r =>
    if r.job_id == jobId then
      { r with status := "failed", error_message := some msg,
               completed_at := some now }
    else r

/-- Executing the completed-update statement; throws when the store is
unavailable. -/
def updateJobRun (env : Env) (db : List JobRecord) (outputFilename : String)
    (csize : Nat) (ratio : ℤ) (now : Nat) (jobId : String) :
    Except String (List JobRecord) :=
  if env.storeFails then .error "SqliteError: unable to update job"
  else .ok (updateJobMap db outputFilename csize ratio now jobId)

/-- Executing the failed-update statement; throws when the store is
unavailable. -/
def updateJobErrorRun (env : Env) (db : List JobRecord) (msg : String)
    (now : Nat) (jobId : String) : Except String (List JobRecord) :=
  if env.storeFails then .error "SqliteError: unable to update job"
  else .ok (updateJobErrorMap db msg now jobId)

/-- `SELECT * FROM pdf_compression_jobs WHERE job_id = ?` followed by
`.get` (bot.js:1152-1153); throws when the lookup fails. -/
def getJobRow (env : Env) (db : List JobRecord) (jobId : String) :
    Except String (Option JobRecord) :=
  if env.lookupFails then .error "SqliteError: unable to read job"
  else .ok (List.find? (fun r => r.job_id == jobId) db)

/-- `SELECT webhook_url FROM pdf_compression_jobs WHERE job_id = ?`
(bot.js:1219-1220); throws when the lookup fails. -/
def getJobWebhookUrl (env : Env) (db : List JobRecord) (jobId : String) :
    Except String (Option String) :=
  if env.lookupFails then .error "SqliteError: unable to read job"
  else .ok ((List.find? (fun r => r.job_id == jobId) db).map (fun r => r.webhook_url))

/-- The output filename of bot.js:1110:
`compressed_<Date.now()>_<originalFilename>`. -/
def outputFilenameOf (now : Nat) (originalFilename : String) : String :=
  "compressed_" ++ toString now ++ "_" ++ originalFilename

/-- `path.join('uploads', outputFilename)` (bot.js:1111). -/
def outputPathOf (now : Nat) (originalFilename : String) : String :=
  "uploads/" ++ outputFilenameOf now originalFilename

/-- The fixed Ghostscript flag sequence of bot.js:1120, up to and
including the `-sOutputFile=` flag prefix. -/
def gsFlags : String :=
  "gs -sDEVICE=pdfwrite -dCompatibilityLevel=1.4 -dPDFSETTINGS=/ebook -dNOPAUSE -dQUIET -dBATCH -sOutputFile="

/-- The command string handed to the shell (bot.js:1120): template
literal interpolation, no quoting or escaping of either path. -/
def gsCommandOf (outputPath inputPath : String) : String :=
  gsFlags ++ outputPath ++ " " ++ inputPath

/-- Rounding to two decimal places, the effect of `.toFixed(2)` on the
stored REAL value (ties round toward the larger value, as in the
ECMAScript toFixed specification). -/
def round2 (q : ℚ) : ℚ := (round (q * 100) : ℤ) / 100

/-- Fuel-driven floor of log2, so the kernel can evaluate it. -/
def log2Fuel : Nat → Nat → Nat
  | 0, _ => 0
  | fuel + 1, n => if 2 ≤ n then log2Fuel fuel (n / 2) + 1 else 0

/-- ⌊log2 n⌋ for n > 0 (0 for 0 and 1). -/
def natLog2 (n : Nat) : Nat := log2Fuel n n

/-- Round a/q to the nearest integer, ties to even (for q > 0): the
IEEE-754 round-to-nearest-even kernel. -/
def rne (a q : Nat) : Nat :=
  let d := a / q
  let r := a % q
  if 2 * r < q then d
  else if q < 2 * r then d + 1
  else if d % 2 = 0 then d else d + 1

/-- ⌊log2 (P/Q)⌋ for positive P and Q. -/
def floorLog2Ratio (P Q : Nat) : ℤ :=
  let d : ℤ := (natLog2 P : ℤ) - (natLog2 Q : ℤ)
  if 0 ≤ d then (if Q * 2 ^ d.toNat ≤ P then d else d - 1)
  else (if Q ≤ P * 2 ^ (-d).toNat then d else d - 1)

/-- The binary64 value nearest to P/Q (P, Q positive), as a pair (m, k)
denoting m·2^k with 2^52 ≤ m ≤ 2^53. -/
def roundPosRat (P Q : Nat) : ℤ × ℤ :=
  let e := floorLog2Ratio P Q
  let s : ℤ := 52 - e
  let m := if 0 ≤ s then rne (P * 2 ^ s.toNat) Q else rne P (Q * 2 ^ (-s).toNat)
  ((m : ℤ), e - 52)

/-- Round the exact value M·2^k to binary64 (round to nearest, ties to
even); exact when |M| < 2^53. -/
def f64round (M : ℤ) (k : ℤ) : ℤ × ℤ :=
  if M.natAbs < 2 ^ 53 then (M, k)
  else
    let a := M.natAbs
    let sh := natLog2 a - 52
    let m := rne a (2 ^ sh)
    ((if M < 0 then -(m : ℤ) else (m : ℤ)), k + (sh : ℤ))

/-- JS Number(n): the binary64 value nearest to a natural number. -/
def f64ofNat (n : Nat) : ℤ × ℤ := f64round (n : ℤ) 0

/-- binary64 subtraction: the exact difference, then one rounding. -/
def f64sub (x y : ℤ × ℤ) : ℤ × ℤ :=
  let k := min x.2 y.2
  f64round (x.1 * ((2 ^ (x.2 - k).toNat : Nat) : ℤ)
    - y.1 * ((2 ^ (y.2 - k).toNat : Nat) : ℤ)) k

/-- binary64 division, correctly rounded (0 for a zero operand: the
division-by-zero NaN corner of the source is outside every claim). -/
def f64div (x y : ℤ × ℤ) : ℤ × ℤ :=
  if x.1 = 0 then (0, 0)
  else if y.1 = 0 then (0, 0)
  else
    let me := roundPosRat x.1.natAbs y.1.natAbs
    ((if x.1 * y.1 < 0 then -me.1 else me.1), me.2 + x.2 - y.2)

/-- ECMAScript toFixed(2) of a binary64 value m·2^k, as an integer count
of hundredths: the integer n for which n/100 is closest to the value,
ties to the larger n, which is ⌊100·x + 1/2⌋. -/
def toFixedHundredths (x : ℤ × ℤ) : ℤ :=
  let m := x.1 * 100
  if 0 ≤ x.2 then m * ((2 ^ x.2.toNat : Nat) : ℤ)
  else
    let j := (-x.2).toNat
    (2 * m + ((2 ^ j : Nat) : ℤ)) / ((2 ^ (j + 1) : Nat) : ℤ)

/-- The IEEE-754 binary64 evaluation of bot.js:1134,
`(originalStats.size - compressedStats.size) / originalStats.size * 100`:
each step (conversion of the sizes, subtraction, division,
multiplication by 100) is correctly rounded to binary64.  All values
stay far inside the finite normal range for any real file size, so
overflow and subnormals are not modelled. -/
def jsRatioF64 (osize csize : Nat) : ℤ × ℤ :=
  let od := f64ofNat osize
  let cd := f64ofNat csize
  let sub := f64sub od cd
  let quo := f64div sub od
  f64round (quo.1 * 100) quo.2

/-- The ratio stored at bot.js:1134-1146, in hundredths of a percent:
`.toFixed(2)` applied to the binary64 evaluation of the formula. -/
def ratioHundredths (osize csize : Nat) : ℤ :=
  toFixedHundredths (jsRatioF64 osize csize)

/-- Modelled from the spec: the declaration of `execAsync` is not under
src/ (only its call site, bot.js:1123, is).  Spec section 4.2 and the
repo README (PDF_COMPRESSION_README.md:142, Timeout: 5 minutes maximum
per job) say the invocation is bounded by a timeout, design default 5
minutes. -/
def EXEC_TIMEOUT_MS : Nat := 300000

/-- Modelled from the spec: the error a timed-out invocation reports
(spec section 4.2, EngineError::Timeout). -/
def execTimeoutMessage : String := "EngineError::Timeout"

/-- Modelled from the spec: `execAsync` runs the subprocess; a thrown
error rejects, and a subprocess that never exits is terminated at the
bound and rejects with the timeout error.  Exit zero resolves. -/
def execAsyncModel (b : ExecBehavior) : Except String (Option Nat) :=
  match b with
  | .ok created => .ok created
  | .fail msg => .error msg
  | .hang => .error execTimeoutMessage

/-- Modelled from the spec: elapsed wall time of the invocation; a
hanging subprocess is terminated exactly at the configured bound. -/
def execElapsedMs (b : ExecBehavior) : Nat :=
  match b with
  | .ok _ => 0
  | .fail _ => 0
  | .hang => EXEC_TIMEOUT_MS

/-- Trace suffix of the error-webhook fetch (bot.js:1229-1240): a
thrown fetch error is caught and logged; a non-2xx response is not
examined at all (no `.ok` check on this path). -/
def errorFetchTail (fo : FetchOutcome) (jobId : String) : List Event :=
  match fo with
  | .throwErr m => [.log "error" ("Error webhook failed for job " ++ jobId ++ ": " ++ m)]
  | _ => []

/-- The error-webhook section of the catch block (bot.js:1217-1241):
look up the webhook URL; if a row exists, POST the error payload; a
thrown lookup or fetch error is caught and logged. -/
def errorWebhookStep (env : Env) (s : SysState) (jobId msg : String) : SysState :=
  match getJobWebhookUrl env s.db jobId with
  | .error m =>
      addTrace s (.log "error" ("Error webhook failed for job " ++ jobId ++ ": " ++ m))
  | .ok none => s
  | .ok (some url) =>
      let s := addTrace s (.webhookPost url (Payload.failedPayload jobId msg))
      { s with trace := s.trace ++ errorFetchTail env.fetch1 jobId }

/-- The catch block of bot.js:1196-1241: log, mark the job failed,
guarded removal of input then output, then the error webhook inside its
own try/catch.  A store failure in the failed-update itself is not
caught and rejects the promise. -/
def catchBlock (env : Env) (s : SysState) (jobId inputPath outputPath msg : String)
    (now : Nat) : Except (String × SysState) SysState :=
  let s := addTrace s (.log "error" ("PDF compression failed for job " ++ jobId ++ ": " ++ msg))
  match updateJobErrorRun env s.db msg now jobId with
  | .error m => .error (m, s)
  | .ok db1 =>
    let s := addTrace { s with db := db1 } (.dbFailed jobId)
    let s := guardedUnlinkStep s inputPath
    let s := guardedUnlinkStep s outputPath
    .ok (errorWebhookStep env s jobId msg)

/-- The log line the success-path webhook try/catch emits
(bot.js:1183-1191): a 2xx logs success, a non-2xx logs the status, a
thrown error is caught and its message logged. -/
def successFetchLog (fo : FetchOutcome) (jobId : String) : Event :=
  match fo with
  | .ok2xx _ => .log "info" ("Webhook sent successfully for job " ++ jobId)
  | .non2xx c => .log "error" ("Webhook failed for job " ++ jobId ++ ": " ++ toString c)
  | .throwErr m => .log "error" ("Webhook error for job " ++ jobId ++ ": " ++ m)

/-- The webhook section of the success path (bot.js:1160-1192): build
the payload from the re-read row, POST it once, then log the outcome. -/
def successWebhookStep (env : Env) (s : SysState) (jobId : String)
    (job : JobRecord) (outputFilename : String) (fileData : Nat) : SysState :=
  let payload := Payload.completedPayload job.job_id job.original_filename
      outputFilename job.original_size job.compressed_size job.compression_ratio
      fileData job.completed_at
  let s := addTrace s (.webhookPost job.webhook_url payload)
  addTrace s (successFetchLog env.fetch1 jobId)

/-- The try block of bot.js:1113-1194, in source order: build the
command, invoke the subprocess, check the output exists, stat both
files, compute the ratio, run the completed-update, unlink the input
(unguarded), re-read the job row, read the output bytes, POST the
success webhook, final log.  Thrown errors carry the state at the throw
point to the catch handler. -/
def tryBody (env : Env) (s0 : SysState) (jobId inputPath originalFilename : String)
    (now : Nat) : Except (String × SysState) SysState :=
  let outputFilename := outputFilenameOf now originalFilename
  let outputPath := "uploads/" ++ outputFilename
  let s := addTrace s0 (.log "info" ("Starting PDF compression for job " ++ jobId))
  let s := addTrace s (.execCmd (gsCommandOf outputPath inputPath))
  match execAsyncModel env.exec with
  | .error m => .error (m, s)
  | .ok created =>
    let s := match created with
      | some n => { s with fs := s.fs ++ [(outputPath, n)] }
      | none => s
    if existsSync s.fs outputPath then
      match statSyncSize s.fs inputPath with
      | .error m => .error (m, s)
      | .ok osize =>
        match statSyncSize s.fs outputPath with
        | .error m => .error (m, s)
        | .ok csize =>
          let ratio := ratioHundredths osize csize
          match updateJobRun env s.db outputFilename csize ratio now jobId with
          | .error m => .error (m, s)
          | .ok db1 =>
            let s := addTrace { s with db := db1 } (.dbCompleted jobId)
            match unlinkSync s.fs inputPath with
            | .error m => .error (m, s)
            | .ok fs2 =>
              let s := addTrace { s with fs := fs2 } (.unlink inputPath)
              match getJobRow env s.db jobId with
              | .error m => .error (m, s)
              | .ok none => .error ("TypeError: Cannot read properties of undefined", s)
              | .ok (some job) =>
                match readFileSyncSize s.fs ("uploads/" ++ outputFilename) with
                | .error m => .error (m, s)
                | .ok fileData =>
                  let s := successWebhookStep env s jobId job outputFilename fileData
                  .ok (addTrace s (.log "info" ("PDF compression completed for job " ++ jobId)))
    else .error ("Compressed PDF was not created", s)

/-- `compressPdfAsync(jobId, inputPath, originalFilename)`
(bot.js:1109-1242): the try block, with every thrown error routed to
the catch block.  `.ok` is the promise resolving, `.error` rejecting. -/
def compressPdfAsync (env : Env) (s0 : SysState)
    (jobId inputPath originalFilename : String) (now : Nat) :
    Except (String × SysState) SysState :=
  match tryBody env s0 jobId inputPath originalFilename now with
  | .ok s => .ok s
  | .error (m, s) =>
      catchBlock env s jobId inputPath (outputPathOf now originalFilename) m now

/-- Status of the stored record for a job id. -/
def statusOf (db : List JobRecord) (jobId : String) : Option String :=
  (List.find? (fun r => r.job_id == jobId) db).map (fun r => r.status)

/-- Stored error message of the record for a job id. -/
def errorMessageOf (db : List JobRecord) (jobId : String) : Option (Option String) :=
  (List.find? (fun r => r.job_id == jobId) db).map (fun r => r.error_message)

def isWebhookPost : Event → Bool
  | .webhookPost _ _ => true
  | _ => false

def listPrefix : List Char → List Char → Bool
  | [], _ => true
  | _ :: _, [] => false
  | a :: xs, b :: ys => a == b && listPrefix xs ys

/-- Whether `pre` is a prefix of `s` (character-level startsWith). -/
def strStarts (pre s : String) : Bool := listPrefix pre.data s.data

/-- Delivery-failure log entries: the three messages bot.js emits when a
webhook POST gets a non-2xx response or throws. -/
def isDeliveryFailureLog : Event → Bool
  | .log _ m =>
      strStarts "Webhook failed" m || strStarts "Webhook error" m ||
        strStarts "Error webhook failed" m
  | _ => false

/-- Number of webhook POST attempts in a trace. -/
def postCount (tr : List Event) : Nat := (tr.filter isWebhookPost).length

def isUnlinkOf (p : String) : Event → Bool
  | .unlink q => q == p
  | _ => false

/-- Stored compressed_size of the record for a job id. -/
def compressedSizeOf (db : List JobRecord) (jobId : String) : Option (Option Nat) :=
  (List.find? (fun r => r.job_id == jobId) db).map (fun r => r.compressed_size)

/-- Stored original_size of the record for a job id. -/
def originalSizeOf (db : List JobRecord) (jobId : String) : Option (Option Nat) :=
  (List.find? (fun r => r.job_id == jobId) db).map (fun r => r.original_size)

/-- Stored compression_ratio (in hundredths) of the record for a job id. -/
def ratioOf (db : List JobRecord) (jobId : String) : Option (Option ℤ) :=
  (List.find? (fun r => r.job_id == jobId) db).map (fun r => r.compression_ratio)

/-- Whitespace word-splitting: how a POSIX shell tokenizes the command
string handed to it (the command applies no quoting or escaping). -/
def wordsAux (cur : List Char) : List Char → List (List Char)
  | [] => [cur.reverse]
  | c :: rest => if c = ' ' then cur.reverse :: wordsAux [] rest else wordsAux (c :: cur) rest

/-- Number of whitespace-separated tokens of the shell command. -/
def numTokens (s : String) : Nat := (wordsAux [] s.data).length

/-- A freshly created job row, as the submission endpoint inserts it:
status processing, sizes of the upload recorded, nothing else set. -/
def exRec : JobRecord :=
  { job_id := "j1", webhook_url := "https://example.com/hook",
    original_filename := some "a.pdf", compressed_filename := none,
    status := "processing", original_size := some 1000,
    compressed_size := none, compression_ratio := none,
    error_message := none, completed_at := none }

/-- A world with one processing job and its uploaded input file. -/
def exState : SysState :=
  { db := [exRec], fs := [("uploads/in1.pdf", 1000)], trace := [] }

def envOkA : Env :=
  { exec := .ok (some 400), fetch1 := .ok2xx 200, storeFails := false, lookupFails := false }

def envFailA : Env :=
  { exec := .fail "gs exited 1", fetch1 := .ok2xx 200, storeFails := false, lookupFails := false }

def envHangA : Env :=
  { exec := .hang, fetch1 := .ok2xx 200, storeFails := false, lookupFails := false }

/-- Zero exit with a created but empty (0-byte) output file. -/
def envEmptyOut : Env :=
  { exec := .ok (some 0), fetch1 := .ok2xx 200, storeFails := false, lookupFails := false }

/-- Zero exit with no output file created at all. -/
def envFailNoOut : Env :=
  { exec := .ok none, fetch1 := .ok2xx 200, storeFails := false, lookupFails := false }

/-- Successful compression with a webhook endpoint answering HTTP 500. -/
def envOkNon2xx : Env :=
  { exec := .ok (some 400), fetch1 := .non2xx 500, storeFails := false, lookupFails := false }

/-- Successful compression with the webhook fetch throwing. -/
def envOkThrow : Env :=
  { exec := .ok (some 400), fetch1 := .throwErr "ETIMEDOUT", storeFails := false,
    lookupFails := false }

/-- Engine failure and a webhook endpoint answering HTTP 500. -/
def envFailNon2xx : Env :=
  { exec := .fail "gs exited 1", fetch1 := .non2xx 500, storeFails := false, lookupFails := false }

/-- Engine failure with the job-row lookup itself throwing. -/
def envFailLookup : Env :=
  { exec := .fail "gs exited 1", fetch1 := .ok2xx 200, storeFails := false, lookupFails := true }

/-- Engine failure with the webhook fetch throwing a network error. -/
def envFailThrow : Env :=
  { exec := .fail "gs exited 1", fetch1 := .throwErr "ECONNREFUSED", storeFails := false,
    lookupFails := false }

/-- A world with an input file but no job row at all. -/
def c10stateNoRow : SysState :=
  { db := [], fs := [("uploads/in1.pdf", 1000)], trace := [] }

/-- A world with one processing job and two files on disk. -/
def c1state0 : SysState :=
  { db := [exRec], fs := [("uploads/in1.pdf", 1000), ("uploads/in2.pdf", 900)], trace := [] }

/-- A job row already resolved to failed. -/
def c1recFailed : JobRecord :=
  { exRec with status := "failed", error_message := some "boom" }

/-- First resolution attempt: the engine fails, the job goes to failed. -/
def c1run1 : Except (String × SysState) SysState :=
  compressPdfAsync envFailA c1state0 "j1" "uploads/in1.pdf" "a.pdf" 5

/-- Second resolution attempt for the same jobId, now succeeding. -/
def c1run2 : Except (String × SysState) SysState :=
  match c1run1 with
  | .ok s => compressPdfAsync envOkA s "j1" "uploads/in2.pdf" "a.pdf" 6
  | e => e

/-- A world where the job row exists but the input file does not. -/
def c4state0 : SysState := { db := [exRec], fs := [], trace := [] }

/-- A job row whose sizes make the exact ratio a two-decimal tie:
(20000 - 19877) / 20000 * 100 = 0.615 exactly. -/
def recTie : JobRecord := { exRec with original_size := some 20000 }

/-- A world holding that job and its 20000-byte input file. -/
def stateTie : SysState :=
  { db := [recTie], fs := [("uploads/in1.pdf", 20000)], trace := [] }

/-- Zero exit producing a 19877-byte output for the tie scenario. -/
def envTie : Env :=
  { exec := .ok (some 19877), fetch1 := .ok2xx 200, storeFails := false, lookupFails := false }

theorem find?_append_left {α : Type} {p : α → Bool} {l₁ l₂ : List α} {a : α}
    (h : List.find? p l₁ = some a) : List.find? p (l₁ ++ l₂) = some a := by
  rw [List.find?_append, h]
  rfl

theorem find?_append_of_none {α : Type} {p : α → Bool} {l₁ l₂ : List α}
    (h : List.find? p l₁ = none) : List.find? p (l₁ ++ l₂) = List.find? p l₂ := by
  rw [List.find?_append, h]
  rfl

theorem removeFile_find?_self (fs : Fs) (p : String) :
    List.find? (fun e => e.1 == p) (removeFile fs p) = none := by
  rw [removeFile, List.find?_filter, List.find?_eq_none]
  intro x _
  simp

theorem existsSync_removeFile_self (fs : Fs) (p : String) :
    existsSync (removeFile fs p) p = false := by
  rw [existsSync, removeFile_find?_self]
  rfl

theorem removeFile_find?_other (fs : Fs) (p q : String) (hne : (q == p) = false) :
    List.find? (fun e => e.1 == q) (removeFile fs p) =
      List.find? (fun e => e.1 == q) fs := by
  induction fs with
  | nil => rfl
  | cons e t ih =>
    by_cases hq : (e.1 == q) = true
    · have heq : e.1 = q := eq_of_beq hq
      have hep : (e.1 == p) = false := by
        rw [heq]
        exact hne
      simp [removeFile, List.filter_cons, hep, List.find?_cons, hq]
    · rw [Bool.not_eq_true] at hq
      by_cases hep : (e.1 == p) = true
      · simp only [removeFile, List.filter_cons, hep] at *
        simpa [List.find?_cons, hq] using ih
      · rw [Bool.not_eq_true] at hep
        simp only [removeFile, List.filter_cons, hep] at *
        simpa [List.find?_cons, hq] using ih

theorem existsSync_removeFile_other (fs : Fs) (p q : String)
    (hne : (q == p) = false) :
    existsSync (removeFile fs p) q = existsSync fs q := by
  rw [existsSync, existsSync, removeFile_find?_other fs p q hne]

theorem find?_map_job (f : JobRecord → JobRecord)
    (hid : ∀ x, (f x).job_id = x.job_id)
    (db : List JobRecord) (jobId : String) (r : JobRecord)
    (h : List.find? (fun x => x.job_id == jobId) db = some r) :
    List.find? (fun x => x.job_id == jobId)
      (db.map (fun x => if x.job_id == jobId then f x else x)) = some (f r) := by
  rw [List.find?_map]
  have hpg : ((fun x => x.job_id == jobId) ∘
        (fun x => if x.job_id == jobId then f x else x))
      = (fun x : JobRecord => x.job_id == jobId) := by
    funext x
    by_cases hx : (x.job_id == jobId) = true
    · simp [Function.comp, hx, hid]
    · rw [Bool.not_eq_true] at hx
      simp [Function.comp, hx]
  rw [hpg, h]
  have hr0 := List.find?_some h
  have hr : (r.job_id == jobId) = true := hr0
  show some (if (r.job_id == jobId) = true then f r else r) = some (f r)
  rw [if_pos hr]

theorem updateJobMap_find? (db : List JobRecord) (o : String) (c : Nat) (q : ℤ)
    (now : Nat) (jobId : String) (r : JobRecord)
    (h : List.find? (fun x => x.job_id == jobId) db = some r) :
    List.find? (fun x => x.job_id == jobId) (updateJobMap db o c q now jobId) =
      some { r with status := "completed", compressed_filename := some o,
                    compressed_size := some c, compression_ratio := some q,
                    completed_at := some now } := by
  simp only [updateJobMap]
  exact find?_map_job
    (fun x => { x with status := "completed", compressed_filename := some o,
                       compressed_size := some c, compression_ratio := some q,
                       completed_at := some now })
    (fun x => rfl) db jobId r h

theorem updateJobErrorMap_find? (db : List JobRecord) (msg : String) (now : Nat)
    (jobId : String) (r : JobRecord)
    (h : List.find? (fun x => x.job_id == jobId) db = some r) :
    List.find? (fun x => x.job_id == jobId) (updateJobErrorMap db msg now jobId) =
      some { r with status := "failed", error_message := some msg,
                    completed_at := some now } := by
  simp only [updateJobErrorMap]
  exact find?_map_job
    (fun x => { x with status := "failed", error_message := some msg,
                       completed_at := some now })
    (fun x => rfl) db jobId r h

theorem updateJobErrorMap_of_none (db : List JobRecord) (msg : String)
    (now : Nat) (jobId : String)
    (h : List.find? (fun x => x.job_id == jobId) db = none) :
    updateJobErrorMap db msg now jobId = db := by
  rw [List.find?_eq_none] at h
  rw [updateJobErrorMap]
  conv_rhs => rw [show db = db.map id from (List.map_id db).symm]
  refine List.map_congr_left ?_
  intro a hmem
  have := h a hmem
  simp only [Bool.not_eq_true] at this
  simp [this]

theorem catchBlock_eq (env : Env) (s : SysState) (jobId inputPath outputPath msg : String)
    (now : Nat) (hstore : env.storeFails = false) :
    catchBlock env s jobId inputPath outputPath msg now =
      .ok (errorWebhookStep env
            (guardedUnlinkStep (guardedUnlinkStep
              (addTrace
                { addTrace s (.log "error"
                    ("PDF compression failed for job " ++ jobId ++ ": " ++ msg)) with
                  db := updateJobErrorMap s.db msg now jobId }
                (.dbFailed jobId))
              inputPath) outputPath)
            jobId msg) := by
  unfold catchBlock updateJobErrorRun
  rw [hstore]
  rfl

theorem run_execFail (env : Env) (s0 : SysState) (jobId ip name msg : String) (now : Nat)
    (hexec : env.exec = .fail msg) :
    compressPdfAsync env s0 jobId ip name now =
      catchBlock env
        (addTrace (addTrace s0 (.log "info" ("Starting PDF compression for job " ++ jobId)))
          (.execCmd (gsCommandOf (outputPathOf now name) ip)))
        jobId ip (outputPathOf now name) msg now := by
  unfold compressPdfAsync tryBody execAsyncModel
  rw [hexec]
  rfl

theorem run_hang (env : Env) (s0 : SysState) (jobId ip name : String) (now : Nat)
    (hexec : env.exec = .hang) :
    compressPdfAsync env s0 jobId ip name now =
      catchBlock env
        (addTrace (addTrace s0 (.log "info" ("Starting PDF compression for job " ++ jobId)))
          (.execCmd (gsCommandOf (outputPathOf now name) ip)))
        jobId ip (outputPathOf now name) execTimeoutMessage now := by
  unfold compressPdfAsync tryBody execAsyncModel
  rw [hexec]
  rfl

theorem existsSync_append_self (l : Fs) (p : String) (n : Nat) :
    existsSync (l ++ [(p, n)]) p = true := by
  rw [existsSync, List.find?_append]
  cases h : List.find? (fun e => e.1 == p) l with
  | some a => rfl
  | none => simp [List.find?_cons]

theorem run_success (env : Env) (s0 : SysState) (jobId ip name : String)
    (now n osize : Nat) (r0 : JobRecord)
    (hexec : env.exec = .ok (some n))
    (hstore : env.storeFails = false)
    (hlookup : env.lookupFails = false)
    (hne : (outputPathOf now name == ip) = false)
    (hin : List.find? (fun e => e.1 == ip) s0.fs = some (ip, osize))
    (hout : List.find? (fun e => e.1 == outputPathOf now name) s0.fs = none)
    (hdb : List.find? (fun r => r.job_id == jobId) s0.db = some r0) :
    compressPdfAsync env s0 jobId ip name now =
      .ok { db := updateJobMap s0.db (outputFilenameOf now name) n
                    (ratioHundredths osize n) now jobId,
            fs := removeFile (s0.fs ++ [(outputPathOf now name, n)]) ip,
            trace := s0.trace
              ++ [Event.log "info" ("Starting PDF compression for job " ++ jobId)]
              ++ [Event.execCmd (gsCommandOf (outputPathOf now name) ip)]
              ++ [Event.dbCompleted jobId]
              ++ [Event.unlink ip]
              ++ [Event.webhookPost r0.webhook_url (Payload.completedPayload
                    r0.job_id r0.original_filename (outputFilenameOf now name)
                    r0.original_size (some n) (some (ratioHundredths osize n)) n (some now))]
              ++ [successFetchLog env.fetch1 jobId]
              ++ [Event.log "info" ("PDF compression completed for job " ++ jobId)] } := by
  have hne' : (("uploads/" ++ outputFilenameOf now name) == ip) = false := hne
  have hout' : List.find? (fun e => e.1 == ("uploads/" ++ outputFilenameOf now name)) s0.fs
      = none := hout
  have hex1 : existsSync (s0.fs ++ [("uploads/" ++ outputFilenameOf now name, n)])
      ("uploads/" ++ outputFilenameOf now name) = true := existsSync_append_self s0.fs _ n
  have h1 : statSyncSize (s0.fs ++ [("uploads/" ++ outputFilenameOf now name, n)]) ip
      = .ok osize := by
    simp only [statSyncSize, find?_append_left hin]
  have h2 : statSyncSize (s0.fs ++ [("uploads/" ++ outputFilenameOf now name, n)])
      ("uploads/" ++ outputFilenameOf now name) = .ok n := by
    simp only [statSyncSize]
    rw [find?_append_of_none hout']
    simp [List.find?_cons]
  have h3 : updateJobRun env s0.db (outputFilenameOf now name) n
      (ratioHundredths osize n) now jobId
      = .ok (updateJobMap s0.db (outputFilenameOf now name) n
          (ratioHundredths osize n) now jobId) := by
    unfold updateJobRun
    rw [hstore]
    rfl
  have hexin : existsSync (s0.fs ++ [("uploads/" ++ outputFilenameOf now name, n)]) ip
      = true := by
    rw [existsSync, find?_append_left hin]
    rfl
  have h4 : unlinkSync (s0.fs ++ [("uploads/" ++ outputFilenameOf now name, n)]) ip
      = .ok (removeFile (s0.fs ++ [("uploads/" ++ outputFilenameOf now name, n)]) ip) := by
    unfold unlinkSync
    rw [hexin]
    rfl
  have h5 : getJobRow env (updateJobMap s0.db (outputFilenameOf now name) n
        (ratioHundredths osize n) now jobId) jobId
      = .ok (some { r0 with
                status := "completed",
                compressed_filename := some (outputFilenameOf now name),
                compressed_size := some n,
                compression_ratio := some (ratioHundredths osize n),
                completed_at := some now }) := by
    unfold getJobRow
    rw [hlookup]
    rw [updateJobMap_find? s0.db (outputFilenameOf now name) n
        (ratioHundredths osize n) now jobId r0 hdb]
    rfl
  have h6 : readFileSyncSize (removeFile
        (s0.fs ++ [("uploads/" ++ outputFilenameOf now name, n)]) ip)
        ("uploads/" ++ outputFilenameOf now name) = .ok n := by
    simp only [readFileSyncSize]
    rw [removeFile_find?_other _ _ _ hne']
    rw [find?_append_of_none hout']
    simp [List.find?_cons]
  unfold compressPdfAsync tryBody execAsyncModel
  rw [hexec]
  simp only [addTrace, h1, h2, h3, h4, h5, h6, hex1, eq_self_iff_true, if_true]
  unfold successWebhookStep addTrace
  rfl



theorem guardedUnlinkStep_pos (s : SysState) (p : String)
    (h : existsSync s.fs p = true) :
    guardedUnlinkStep s p =
      { s with fs := removeFile s.fs p, trace := s.trace ++ [Event.unlink p] } := by
  unfold guardedUnlinkStep
  rw [h]
  rfl

theorem guardedUnlinkStep_neg (s : SysState) (p : String)
    (h : existsSync s.fs p = false) :
    guardedUnlinkStep s p = s := by
  unfold guardedUnlinkStep
  rw [h]
  rfl

theorem guardedUnlinkStep_fs (s : SysState) (p : String) :
    (guardedUnlinkStep s p).fs = guardedUnlink s.fs p := by
  unfold guardedUnlinkStep guardedUnlink
  split
  · rfl
  · rfl

theorem guardedUnlinkStep_db (s : SysState) (p : String) :
    (guardedUnlinkStep s p).db = s.db := by
  unfold guardedUnlinkStep
  split
  · rfl
  · rfl

theorem errorWebhookStep_fs (env : Env) (s : SysState) (jobId msg : String) :
    (errorWebhookStep env s jobId msg).fs = s.fs := by
  unfold errorWebhookStep
  split
  · rfl
  · rfl
  · rfl

theorem errorWebhookStep_db (env : Env) (s : SysState) (jobId msg : String) :
    (errorWebhookStep env s jobId msg).db = s.db := by
  unfold errorWebhookStep
  split
  · rfl
  · rfl
  · rfl

theorem errorWebhookStep_found (env : Env) (s : SysState) (jobId msg : String)
    (r : JobRecord) (hl : env.lookupFails = false)
    (h : List.find? (fun x => x.job_id == jobId) s.db = some r) :
    errorWebhookStep env s jobId msg =
      { s with trace := s.trace ++ [Event.webhookPost r.webhook_url
          (Payload.failedPayload jobId msg)] ++ errorFetchTail env.fetch1 jobId } := by
  unfold errorWebhookStep getJobWebhookUrl
  rw [hl, h]
  rfl

theorem errorWebhookStep_noRow (env : Env) (s : SysState) (jobId msg : String)
    (hl : env.lookupFails = false)
    (h : List.find? (fun x => x.job_id == jobId) s.db = none) :
    errorWebhookStep env s jobId msg = s := by
  unfold errorWebhookStep getJobWebhookUrl
  rw [hl, h]
  rfl

theorem errorWebhookStep_lookupFail (env : Env) (s : SysState) (jobId msg : String)
    (hl : env.lookupFails = true) :
    errorWebhookStep env s jobId msg =
      addTrace s (.log "error" ("Error webhook failed for job " ++ jobId ++ ": " ++
        "SqliteError: unable to read job")) := by
  unfold errorWebhookStep getJobWebhookUrl
  rw [hl]
  rfl

theorem run_noOutput (env : Env) (s0 : SysState) (jobId ip name : String) (now : Nat)
    (hexec : env.exec = .ok none)
    (hout : existsSync s0.fs (outputPathOf now name) = false) :
    compressPdfAsync env s0 jobId ip name now =
      catchBlock env
        (addTrace (addTrace s0 (.log "info" ("Starting PDF compression for job " ++ jobId)))
          (.execCmd (gsCommandOf (outputPathOf now name) ip)))
        jobId ip (outputPathOf now name) "Compressed PDF was not created" now := by
  have hout0 : existsSync s0.fs ("uploads/" ++ outputFilenameOf now name) = false := hout
  unfold compressPdfAsync tryBody execAsyncModel
  rw [hexec]
  simp only [addTrace]
  rw [hout0]
  rfl

theorem run_statFailInput (env : Env) (s0 : SysState) (jobId ip name : String)
    (now n : Nat)
    (hexec : env.exec = .ok (some n))
    (hin : List.find? (fun e => e.1 == ip) s0.fs = none)
    (hne : (outputPathOf now name == ip) = false) :
    compressPdfAsync env s0 jobId ip name now =
      catchBlock env
        { db := s0.db,
          fs := s0.fs ++ [(outputPathOf now name, n)],
          trace := s0.trace
            ++ [Event.log "info" ("Starting PDF compression for job " ++ jobId)]
            ++ [Event.execCmd (gsCommandOf (outputPathOf now name) ip)] }
        jobId ip (outputPathOf now name)
        ("ENOENT: no such file or directory, stat " ++ ip) now := by
  have hne0 : (("uploads/" ++ outputFilenameOf now name) == ip) = false := hne
  have hex1 : existsSync (s0.fs ++ [("uploads/" ++ outputFilenameOf now name, n)])
      ("uploads/" ++ outputFilenameOf now name) = true := existsSync_append_self s0.fs _ n
  have h1 : statSyncSize (s0.fs ++ [("uploads/" ++ outputFilenameOf now name, n)]) ip
      = .error ("ENOENT: no such file or directory, stat " ++ ip) := by
    simp only [statSyncSize]
    rw [find?_append_of_none hin]
    simp [List.find?_cons, hne0]
  unfold compressPdfAsync tryBody execAsyncModel
  rw [hexec]
  simp only [addTrace, hex1, h1, eq_self_iff_true, if_true]
  rfl


theorem removeFile_absent_mono (fs : Fs) (p q : String)
    (h : existsSync fs q = false) :
    existsSync (removeFile fs p) q = false := by
  by_contra hc
  rw [Bool.not_eq_false] at hc
  unfold existsSync at hc h
  obtain ⟨x, hxmem, hxp⟩ := List.find?_isSome.mp hc
  have hxfs := (List.mem_filter.mp hxmem).1
  have hsome : (List.find? (fun e => e.1 == q) fs).isSome = true :=
    List.find?_isSome.mpr ⟨x, hxfs, hxp⟩
  rw [h] at hsome
  exact Bool.false_ne_true hsome

theorem guardedUnlink_absent_self (fs : Fs) (p : String) :
    existsSync (guardedUnlink fs p) p = false := by
  unfold guardedUnlink
  split
  · exact existsSync_removeFile_self fs p
  · rename_i h
    simpa using h

theorem guardedUnlink_absent_mono (fs : Fs) (p q : String)
    (h : existsSync fs q = false) :
    existsSync (guardedUnlink fs p) q = false := by
  unfold guardedUnlink
  split
  · exact removeFile_absent_mono fs p q h
  · exact h

theorem catchBlock_storeFails (env : Env) (s : SysState)
    (jobId ip op msg : String) (now : Nat) (hb : env.storeFails = true) :
    catchBlock env s jobId ip op msg now =
      .error ("SqliteError: unable to update job",
        addTrace s (.log "error"
          ("PDF compression failed for job " ++ jobId ++ ": " ++ msg))) := by
  unfold catchBlock updateJobErrorRun
  rw [hb]
  rfl

theorem catchBlock_eval_std (env : Env) (s : SysState) (jobId ip op msg : String)
    (now : Nat) (r0 : JobRecord)
    (hstore : env.storeFails = false) (hlookup : env.lookupFails = false)
    (hip : existsSync s.fs ip = true)
    (hop : existsSync s.fs op = false)
    (hdb : List.find? (fun x => x.job_id == jobId) s.db = some r0) :
    catchBlock env s jobId ip op msg now =
      .ok { db := updateJobErrorMap s.db msg now jobId,
            fs := removeFile s.fs ip,
            trace := s.trace
              ++ [Event.log "error" ("PDF compression failed for job " ++ jobId ++ ": " ++ msg)]
              ++ [Event.dbFailed jobId]
              ++ [Event.unlink ip]
              ++ [Event.webhookPost r0.webhook_url (Payload.failedPayload jobId msg)]
              ++ errorFetchTail env.fetch1 jobId } := by
  rw [catchBlock_eq env s jobId ip op msg now hstore]
  have hdb2 := updateJobErrorMap_find? s.db msg now jobId r0 hdb
  simp [guardedUnlinkStep, errorWebhookStep, getJobWebhookUrl, addTrace, hip, hlookup,
    removeFile_absent_mono s.fs ip op hop, hdb2, List.append_assoc]

theorem catchBlock_eval_outOnly (env : Env) (s : SysState) (jobId ip op msg : String)
    (now : Nat) (r0 : JobRecord)
    (hstore : env.storeFails = false) (hlookup : env.lookupFails = false)
    (hip : existsSync s.fs ip = false)
    (hop : existsSync s.fs op = true)
    (hdb : List.find? (fun x => x.job_id == jobId) s.db = some r0) :
    catchBlock env s jobId ip op msg now =
      .ok { db := updateJobErrorMap s.db msg now jobId,
            fs := removeFile s.fs op,
            trace := s.trace
              ++ [Event.log "error" ("PDF compression failed for job " ++ jobId ++ ": " ++ msg)]
              ++ [Event.dbFailed jobId]
              ++ [Event.unlink op]
              ++ [Event.webhookPost r0.webhook_url (Payload.failedPayload jobId msg)]
              ++ errorFetchTail env.fetch1 jobId } := by
  rw [catchBlock_eq env s jobId ip op msg now hstore]
  have hdb2 := updateJobErrorMap_find? s.db msg now jobId r0 hdb
  simp [guardedUnlinkStep, errorWebhookStep, getJobWebhookUrl, addTrace, hip, hop, hlookup,
    hdb2, List.append_assoc]

theorem catchBlock_eval_noRow (env : Env) (s : SysState) (jobId ip op msg : String)
    (now : Nat)
    (hstore : env.storeFails = false) (hlookup : env.lookupFails = false)
    (hip : existsSync s.fs ip = true)
    (hop : existsSync s.fs op = false)
    (hdb : List.find? (fun x => x.job_id == jobId) s.db = none) :
    catchBlock env s jobId ip op msg now =
      .ok { db := s.db,
            fs := removeFile s.fs ip,
            trace := s.trace
              ++ [Event.log "error" ("PDF compression failed for job " ++ jobId ++ ": " ++ msg)]
              ++ [Event.dbFailed jobId]
              ++ [Event.unlink ip] } := by
  rw [catchBlock_eq env s jobId ip op msg now hstore]
  have hdb0 : updateJobErrorMap s.db msg now jobId = s.db :=
    updateJobErrorMap_of_none s.db msg now jobId hdb
  simp [guardedUnlinkStep, errorWebhookStep, getJobWebhookUrl, addTrace, hip, hlookup,
    removeFile_absent_mono s.fs ip op hop, hdb0, hdb, List.append_assoc]

theorem catchBlock_eval_lookupFail (env : Env) (s : SysState) (jobId ip op msg : String)
    (now : Nat)
    (hstore : env.storeFails = false) (hlookup : env.lookupFails = true)
    (hip : existsSync s.fs ip = true)
    (hop : existsSync s.fs op = false) :
    catchBlock env s jobId ip op msg now =
      .ok { db := updateJobErrorMap s.db msg now jobId,
            fs := removeFile s.fs ip,
            trace := s.trace
              ++ [Event.log "error" ("PDF compression failed for job " ++ jobId ++ ": " ++ msg)]
              ++ [Event.dbFailed jobId]
              ++ [Event.unlink ip]
              ++ [Event.log "error" ("Error webhook failed for job " ++ jobId ++ ": " ++
                    "SqliteError: unable to read job")] } := by
  rw [catchBlock_eq env s jobId ip op msg now hstore]
  simp [guardedUnlinkStep, errorWebhookStep, getJobWebhookUrl, addTrace, hip, hlookup,
    removeFile_absent_mono s.fs ip op hop, List.append_assoc]


theorem existsSync_of_find?_some {fs : Fs} {p : String} {e : String × Nat}
    (h : List.find? (fun x => x.1 == p) fs = some e) : existsSync fs p = true := by
  rw [existsSync, h]
  rfl

theorem existsSync_of_find?_none {fs : Fs} {p : String}
    (h : List.find? (fun x => x.1 == p) fs = none) : existsSync fs p = false := by
  rw [existsSync, h]
  rfl

/-- Claim C1 counterexample: there is no InvalidTransition guard.  A run
resolves job j1 to failed; a second run of compressPdfAsync for the same
jobId resolves without any error and overwrites the stored record back to
completed, so the terminal record is not immutable. -/
theorem C1_counterexample :
    c1run1.toOption.map (fun s => statusOf s.db "j1") = some (some "failed")
      ∧ c1run2.toOption.map (fun s => statusOf s.db "j1") = some (some "completed")
      ∧ c1run2.toOption.isSome = true := by
  decide

/-- Claim C1 (amended): the two UPDATE statements filter only on job_id,
with no status guard, so a resolution attempt on a job whose stored
status is already terminal (here: failed) succeeds and overwrites the
record to completed; no InvalidTransition error exists. -/
theorem C1_no_transition_guard (env : Env) (s0 : SysState) (jobId ip name : String)
    (now n osize : Nat) (r0 : JobRecord)
    (hexec : env.exec = .ok (some n))
    (hstore : env.storeFails = false)
    (hlookup : env.lookupFails = false)
    (hterm : r0.status = "failed")
    (hne : (outputPathOf now name == ip) = false)
    (hin : List.find? (fun e => e.1 == ip) s0.fs = some (ip, osize))
    (hout : List.find? (fun e => e.1 == outputPathOf now name) s0.fs = none)
    (hdb : List.find? (fun r => r.job_id == jobId) s0.db = some r0) :
    (compressPdfAsync env s0 jobId ip name now).toOption.map
      (fun s => statusOf s.db jobId) = some (some "completed") := by
  rw [run_success env s0 jobId ip name now n osize r0 hexec hstore hlookup hne hin hout hdb]
  simp [Except.toOption, statusOf,
    updateJobMap_find? s0.db (outputFilenameOf now name) n (ratioHundredths osize n) now jobId r0 hdb]

/-- Witness for C1_no_transition_guard at a concrete already-failed job. -/
theorem C1_no_transition_guard_witness :
    c1recFailed.status = "failed"
      ∧ (compressPdfAsync envOkA
            { db := [c1recFailed], fs := [("uploads/in2.pdf", 900)], trace := [] }
            "j1" "uploads/in2.pdf" "a.pdf" 6).toOption.map
          (fun s => statusOf s.db "j1") = some (some "completed") :=
  ⟨rfl, C1_no_transition_guard envOkA
    { db := [c1recFailed], fs := [("uploads/in2.pdf", 900)], trace := [] }
    "j1" "uploads/in2.pdf" "a.pdf" 6 400 900 c1recFailed
    rfl rfl rfl rfl (by decide) (by decide) (by decide) (by decide)⟩

/-- Claim C6 counterexample: a zero exit that produced an existing but
empty (0-byte) output file is resolved completed with compressed_size 0,
not failed, because only existence is checked. -/
theorem C6_counterexample :
    (compressPdfAsync envEmptyOut exState "j1" "uploads/in1.pdf" "a.pdf" 5).toOption.map
        (fun s => (statusOf s.db "j1", compressedSizeOf s.db "j1"))
      = some (some "completed", some (some 0)) := by
  decide

/-- Claim C6 (amended): a job is resolved completed exactly when the
subprocess exits zero and the output path exists, with no non-emptiness
check (a 0-byte output completes); a missing output despite a zero exit
is resolved failed with error message Compressed PDF was not created. -/
theorem C6_exists_only_check (env evB : Env) (s0 : SysState) (jobId ip name : String)
    (now n osize : Nat) (r0 : JobRecord)
    (hexec : env.exec = .ok (some n))
    (hstore : env.storeFails = false) (hlookup : env.lookupFails = false)
    (hexecB : evB.exec = .ok none)
    (hstoreB : evB.storeFails = false) (hlookupB : evB.lookupFails = false)
    (hne : (outputPathOf now name == ip) = false)
    (hin : List.find? (fun e => e.1 == ip) s0.fs = some (ip, osize))
    (hout : List.find? (fun e => e.1 == outputPathOf now name) s0.fs = none)
    (hdb : List.find? (fun r => r.job_id == jobId) s0.db = some r0) :
    (compressPdfAsync env s0 jobId ip name now).toOption.map
        (fun s => (statusOf s.db jobId, compressedSizeOf s.db jobId))
      = some (some "completed", some (some n))
    ∧ (compressPdfAsync evB s0 jobId ip name now).toOption.map
        (fun s => (statusOf s.db jobId, errorMessageOf s.db jobId))
      = some (some "failed", some (some "Compressed PDF was not created")) := by
  constructor
  · rw [run_success env s0 jobId ip name now n osize r0 hexec hstore hlookup hne hin hout hdb]
    simp [Except.toOption, statusOf, compressedSizeOf,
      updateJobMap_find? s0.db (outputFilenameOf now name) n (ratioHundredths osize n) now jobId r0 hdb]
  · rw [run_noOutput evB s0 jobId ip name now hexecB (existsSync_of_find?_none hout)]
    rw [catchBlock_eval_std evB
      (addTrace (addTrace s0 (.log "info" ("Starting PDF compression for job " ++ jobId)))
        (.execCmd (gsCommandOf (outputPathOf now name) ip)))
      jobId ip (outputPathOf now name) "Compressed PDF was not created" now r0
      hstoreB hlookupB (existsSync_of_find?_some hin) (existsSync_of_find?_none hout) hdb]
    simp [Except.toOption, statusOf, errorMessageOf, addTrace,
      updateJobErrorMap_find? s0.db "Compressed PDF was not created" now jobId r0 hdb]

/-- Witness for C6_exists_only_check with an empty (n = 0) output file. -/
theorem C6_exists_only_check_witness :
    envEmptyOut.exec = .ok (some 0)
      ∧ ((compressPdfAsync envEmptyOut exState "j1" "uploads/in1.pdf" "a.pdf" 5).toOption.map
            (fun s => (statusOf s.db "j1", compressedSizeOf s.db "j1"))
          = some (some "completed", some (some 0))
        ∧ (compressPdfAsync envFailNoOut exState "j1" "uploads/in1.pdf" "a.pdf" 5).toOption.map
            (fun s => (statusOf s.db "j1", errorMessageOf s.db "j1"))
          = some (some "failed", some (some "Compressed PDF was not created"))) :=
  ⟨rfl, C6_exists_only_check envEmptyOut envFailNoOut exState "j1" "uploads/in1.pdf" "a.pdf"
    5 0 1000 exRec rfl rfl rfl rfl rfl rfl (by decide) (by decide) (by decide) (by decide)⟩

/-- Claim C7 counterexample: the removal the success path performs is a
bare unlinkSync; invoked on an already-removed path it raises ENOENT to
its caller, while the guarded failure-path removal raises nothing. -/
theorem C7_counterexample :
    unlinkSync [] "uploads/gone.pdf"
        = .error ("ENOENT: no such file or directory, unlink " ++ "uploads/gone.pdf")
      ∧ guardedUnlink [] "uploads/gone.pdf" = [] :=
  ⟨rfl, rfl⟩

/-- Claim C7 (amended): the failure-path removals are guarded by an
existence check and raise no error on a missing path; the success-path
input removal (bot.js:1149) is an unguarded unlinkSync and raises ENOENT
on a missing path, an observable error to the surrounding code. -/
theorem C7_unguarded_vs_guarded (fs : Fs) (p : String)
    (h : existsSync fs p = false) :
    unlinkSync fs p = .error ("ENOENT: no such file or directory, unlink " ++ p)
      ∧ guardedUnlink fs p = fs := by
  constructor
  · unfold unlinkSync
    rw [h]
    rfl
  · unfold guardedUnlink
    rw [h]
    rfl

/-- Witness for C7_unguarded_vs_guarded at a concrete missing path. -/
theorem C7_unguarded_vs_guarded_witness :
    existsSync [] "uploads/gone2.pdf" = false
      ∧ (unlinkSync [] "uploads/gone2.pdf"
            = .error ("ENOENT: no such file or directory, unlink " ++ "uploads/gone2.pdf")
          ∧ guardedUnlink [] "uploads/gone2.pdf" = []) :=
  ⟨by decide, C7_unguarded_vs_guarded [] "uploads/gone2.pdf" (by decide)⟩

/-- Claim C9: the shell command is the fixed Ghostscript flag string with
the output path (uploads/compressed_<epoch-millis>_<originalFilename>)
and the input path interpolated verbatim, no quoting or escaping; an
originalFilename containing a space changes the whitespace-parsed token
list of the command (10 tokens instead of 9); a run records exactly this
command string for the subprocess invocation. -/
theorem C9_command_interpolation :
    (∀ ip name : String, ∀ now : Nat,
        gsCommandOf (outputPathOf now name) ip
          = gsFlags ++ ("uploads/" ++ ("compressed_" ++ toString now ++ "_" ++ name))
              ++ " " ++ ip)
      ∧ outputPathOf 5 "a.pdf" = "uploads/compressed_5_a.pdf"
      ∧ numTokens (gsCommandOf (outputPathOf 5 "ab.pdf") "uploads/in.pdf") = 9
      ∧ numTokens (gsCommandOf (outputPathOf 5 "a b.pdf") "uploads/in.pdf") = 10
      ∧ (compressPdfAsync envOkA exState "j1" "uploads/in1.pdf" "a.pdf" 5).toOption.map
          (fun s => decide (Event.execCmd
            "gs -sDEVICE=pdfwrite -dCompatibilityLevel=1.4 -dPDFSETTINGS=/ebook -dNOPAUSE -dQUIET -dBATCH -sOutputFile=uploads/compressed_5_a.pdf uploads/in1.pdf"
            ∈ s.trace)) = some true := by
  refine ⟨?_, rfl, by decide, by decide, by decide⟩
  intro ip name now
  rfl


theorem filter_post_errorFetchTail (fo : FetchOutcome) (jobId : String) :
    (errorFetchTail fo jobId).filter isWebhookPost = [] := by
  cases fo <;> rfl

/-- Claim C2 (spec-modelled execAsync): for a subprocess that never
exits, the invocation is terminated at the configured bound
(EXEC_TIMEOUT_MS, the 5-minute design default) and rejects with the
timeout error; the catch path then marks the job failed with that error
message and posts the failure webhook payload exactly once. -/
theorem C2_timeout (env : Env) (s0 : SysState) (jobId ip name : String)
    (now osize : Nat) (r0 : JobRecord)
    (hexec : env.exec = .hang)
    (hstore : env.storeFails = false) (hlookup : env.lookupFails = false)
    (hin : List.find? (fun e => e.1 == ip) s0.fs = some (ip, osize))
    (hout : List.find? (fun e => e.1 == outputPathOf now name) s0.fs = none)
    (hdb : List.find? (fun r => r.job_id == jobId) s0.db = some r0)
    (htr : s0.trace = []) :
    (compressPdfAsync env s0 jobId ip name now).toOption.map
        (fun s => (statusOf s.db jobId, errorMessageOf s.db jobId, postCount s.trace))
      = some (some "failed", some (some execTimeoutMessage), 1)
    ∧ execElapsedMs env.exec = EXEC_TIMEOUT_MS := by
  constructor
  · rw [run_hang env s0 jobId ip name now hexec]
    rw [catchBlock_eval_std env
      (addTrace (addTrace s0 (.log "info" ("Starting PDF compression for job " ++ jobId)))
        (.execCmd (gsCommandOf (outputPathOf now name) ip)))
      jobId ip (outputPathOf now name) execTimeoutMessage now r0
      hstore hlookup (existsSync_of_find?_some hin) (existsSync_of_find?_none hout) hdb]
    simp [Except.toOption, statusOf, errorMessageOf, addTrace, postCount, htr,
      updateJobErrorMap_find? s0.db execTimeoutMessage now jobId r0 hdb,
      List.filter_append, filter_post_errorFetchTail, isWebhookPost]
  · rw [hexec]
    rfl

/-- Witness for C2_timeout at a concrete hanging run. -/
theorem C2_timeout_witness :
    envHangA.exec = .hang
      ∧ ((compressPdfAsync envHangA exState "j1" "uploads/in1.pdf" "a.pdf" 5).toOption.map
            (fun s => (statusOf s.db "j1", errorMessageOf s.db "j1", postCount s.trace))
          = some (some "failed", some (some execTimeoutMessage), 1)
        ∧ execElapsedMs envHangA.exec = EXEC_TIMEOUT_MS) :=
  ⟨rfl, C2_timeout envHangA exState "j1" "uploads/in1.pdf" "a.pdf" 5 1000 exRec
    rfl rfl rfl (by decide) (by decide) (by decide) rfl⟩

/-- Claim C3 counterexample: on the success path the output file is not
removed: after the job completes, the input file is gone but the
compressed output remains on disk. -/
theorem C3_counterexample :
    (compressPdfAsync envOkA exState "j1" "uploads/in1.pdf" "a.pdf" 5).toOption.map
        (fun s => (statusOf s.db "j1", existsSync s.fs "uploads/in1.pdf",
          existsSync s.fs "uploads/compressed_5_a.pdf"))
      = some (some "completed", false, true) := by
  decide

/-- Claim C3 (amended): the temporary input path is removed on the
success path and on the failure paths (engine error and timeout); the
computed output path is removed on those failure paths; but on the
success path the output file is retained in uploads as the delivered
artifact, not removed. -/
theorem C3_cleanup (env evB evC : Env) (s0 : SysState) (jobId ip name msg : String)
    (now n osize : Nat) (r0 : JobRecord)
    (hexec : env.exec = .ok (some n))
    (hstore : env.storeFails = false) (hlookup : env.lookupFails = false)
    (hexecB : evB.exec = .fail msg)
    (hstoreB : evB.storeFails = false) (hlookupB : evB.lookupFails = false)
    (hexecC : evC.exec = .hang)
    (hstoreC : evC.storeFails = false) (hlookupC : evC.lookupFails = false)
    (hne : (outputPathOf now name == ip) = false)
    (hin : List.find? (fun e => e.1 == ip) s0.fs = some (ip, osize))
    (hout : List.find? (fun e => e.1 == outputPathOf now name) s0.fs = none)
    (hdb : List.find? (fun r => r.job_id == jobId) s0.db = some r0) :
    (compressPdfAsync env s0 jobId ip name now).toOption.map
        (fun s => (existsSync s.fs ip, existsSync s.fs (outputPathOf now name)))
      = some (false, true)
    ∧ (compressPdfAsync evB s0 jobId ip name now).toOption.map
        (fun s => (existsSync s.fs ip, existsSync s.fs (outputPathOf now name)))
      = some (false, false)
    ∧ (compressPdfAsync evC s0 jobId ip name now).toOption.map
        (fun s => (existsSync s.fs ip, existsSync s.fs (outputPathOf now name)))
      = some (false, false) := by
  have hipS : existsSync s0.fs ip = true := existsSync_of_find?_some hin
  have hopS : existsSync s0.fs (outputPathOf now name) = false := existsSync_of_find?_none hout
  have e1 : existsSync (removeFile (s0.fs ++ [(outputPathOf now name, n)]) ip) ip = false :=
    existsSync_removeFile_self _ ip
  have e2 : existsSync (removeFile (s0.fs ++ [(outputPathOf now name, n)]) ip)
      (outputPathOf now name) = true := by
    rw [existsSync, removeFile_find?_other _ _ _ hne, find?_append_of_none hout]
    simp [List.find?_cons]
  have e3 : existsSync (removeFile s0.fs ip) ip = false := existsSync_removeFile_self s0.fs ip
  have e4 : existsSync (removeFile s0.fs ip) (outputPathOf now name) = false :=
    removeFile_absent_mono s0.fs ip (outputPathOf now name) hopS
  refine ⟨?_, ?_, ?_⟩
  · rw [run_success env s0 jobId ip name now n osize r0 hexec hstore hlookup hne hin hout hdb]
    simp [Except.toOption, e1, e2]
  · rw [run_execFail evB s0 jobId ip name msg now hexecB]
    rw [catchBlock_eval_std evB
      (addTrace (addTrace s0 (.log "info" ("Starting PDF compression for job " ++ jobId)))
        (.execCmd (gsCommandOf (outputPathOf now name) ip)))
      jobId ip (outputPathOf now name) msg now r0 hstoreB hlookupB hipS hopS hdb]
    simp [Except.toOption, addTrace, e3, e4]
  · rw [run_hang evC s0 jobId ip name now hexecC]
    rw [catchBlock_eval_std evC
      (addTrace (addTrace s0 (.log "info" ("Starting PDF compression for job " ++ jobId)))
        (.execCmd (gsCommandOf (outputPathOf now name) ip)))
      jobId ip (outputPathOf now name) execTimeoutMessage now r0 hstoreC hlookupC hipS hopS hdb]
    simp [Except.toOption, addTrace, e3, e4]

/-- Witness for C3_cleanup at concrete success, engine-error and
timeout runs. -/
theorem C3_cleanup_witness :
    (envOkA.exec = .ok (some 400) ∧ envFailA.exec = .fail "gs exited 1" ∧ envHangA.exec = .hang)
      ∧ ((compressPdfAsync envOkA exState "j1" "uploads/in1.pdf" "a.pdf" 5).toOption.map
            (fun s => (existsSync s.fs "uploads/in1.pdf",
              existsSync s.fs (outputPathOf 5 "a.pdf"))) = some (false, true)
        ∧ (compressPdfAsync envFailA exState "j1" "uploads/in1.pdf" "a.pdf" 5).toOption.map
            (fun s => (existsSync s.fs "uploads/in1.pdf",
              existsSync s.fs (outputPathOf 5 "a.pdf"))) = some (false, false)
        ∧ (compressPdfAsync envHangA exState "j1" "uploads/in1.pdf" "a.pdf" 5).toOption.map
            (fun s => (existsSync s.fs "uploads/in1.pdf",
              existsSync s.fs (outputPathOf 5 "a.pdf"))) = some (false, false)) :=
  ⟨⟨rfl, rfl, rfl⟩, C3_cleanup envOkA envFailA envHangA exState "j1" "uploads/in1.pdf" "a.pdf"
    "gs exited 1" 5 400 1000 exRec rfl rfl rfl rfl rfl rfl rfl rfl rfl
    (by decide) (by decide) (by decide) (by decide)⟩

/-- Claim C8 counterexample: at original_size 20000 and compressed_size
19877 the exact ratio is 0.615, a two-decimal tie, whose two-decimal
rounding is 0.62; but the binary64 value the program computes is
5539427541665710·2^-53, strictly below 0.615, so toFixed(2) stores
0.61: the stored ratio does not equal the exact formula rounded to two
decimals, and a full run stores 61 hundredths. -/
theorem C8_counterexample :
    jsRatioF64 20000 19877 = (5539427541665710, -53)
      ∧ ratioHundredths 20000 19877 = 61
      ∧ round2 (((20000 : ℚ) - (19877 : ℚ)) / (20000 : ℚ) * 100) = 62 / 100
      ∧ ((ratioHundredths 20000 19877 : ℚ) / 100
          ≠ round2 (((20000 : ℚ) - (19877 : ℚ)) / (20000 : ℚ) * 100))
      ∧ (compressPdfAsync envTie stateTie "j1" "uploads/in1.pdf" "a.pdf" 5).toOption.map
          (fun s => ratioOf s.db "j1") = some (some (some 61)) := by
  have h61 : ratioHundredths 20000 19877 = 61 := by decide
  have hq : round2 (((20000 : ℚ) - (19877 : ℚ)) / (20000 : ℚ) * 100) = 62 / 100 := by
    have harg : ((20000 : ℚ) - (19877 : ℚ)) / (20000 : ℚ) * 100 * 100 + 1 / 2
        = ((124 : ℤ) : ℚ) / ((2 : ℕ) : ℚ) := by
      norm_num
    rw [round2, round_eq, harg, Rat.floor_intCast_div_natCast]
    norm_num
  refine ⟨by decide, h61, hq, ?_, by decide⟩
  rw [h61, hq]
  norm_num

/-- Claim C8 (amended): for a completed job the stored compression_ratio
is the toFixed(2) rounding, in hundredths, of the IEEE-754 binary64
evaluation of (original_size - compressed_size) / original_size * 100,
where original_size is both the stored field and the input file's size;
the value is written only by the completion update - resolving a job to
failed leaves the field unchanged.  At typical inputs this agrees with
the exact two-decimal rounding of the formula (1000/400 stores 6000
hundredths, the round2 of the exact value); at binary64 ties it can
differ by one hundredth (see the counterexample). -/
theorem C8_ratio_binary64 (env evB : Env) (s0 : SysState) (jobId ip name msg : String)
    (now n osize : Nat) (r0 : JobRecord)
    (hpos : 0 < osize)
    (hsize : r0.original_size = some osize)
    (hexec : env.exec = .ok (some n))
    (hstore : env.storeFails = false) (hlookup : env.lookupFails = false)
    (hexecB : evB.exec = .fail msg)
    (hstoreB : evB.storeFails = false) (hlookupB : evB.lookupFails = false)
    (hne : (outputPathOf now name == ip) = false)
    (hin : List.find? (fun e => e.1 == ip) s0.fs = some (ip, osize))
    (hout : List.find? (fun e => e.1 == outputPathOf now name) s0.fs = none)
    (hdb : List.find? (fun r => r.job_id == jobId) s0.db = some r0) :
    (compressPdfAsync env s0 jobId ip name now).toOption.map
        (fun s => (ratioOf s.db jobId, originalSizeOf s.db jobId))
      = some (some (some (ratioHundredths osize n)), some (some osize))
    ∧ (compressPdfAsync evB s0 jobId ip name now).toOption.map
        (fun s => ratioOf s.db jobId) = some (some r0.compression_ratio)
    ∧ ratioHundredths 1000 400 = 6000
    ∧ ((ratioHundredths 1000 400 : ℚ) / 100
        = round2 (((1000 : ℚ) - (400 : ℚ)) / (1000 : ℚ) * 100)) := by
  have h6000 : ratioHundredths 1000 400 = 6000 := by decide
  refine ⟨?_, ?_, h6000, ?_⟩
  · rw [run_success env s0 jobId ip name now n osize r0 hexec hstore hlookup hne hin hout hdb]
    simp [Except.toOption, ratioOf, originalSizeOf, hsize,
      updateJobMap_find? s0.db (outputFilenameOf now name) n (ratioHundredths osize n) now jobId r0 hdb]
  · rw [run_execFail evB s0 jobId ip name msg now hexecB]
    rw [catchBlock_eval_std evB
      (addTrace (addTrace s0 (.log "info" ("Starting PDF compression for job " ++ jobId)))
        (.execCmd (gsCommandOf (outputPathOf now name) ip)))
      jobId ip (outputPathOf now name) msg now r0 hstoreB hlookupB
      (existsSync_of_find?_some hin) (existsSync_of_find?_none hout) hdb]
    simp [Except.toOption, ratioOf, addTrace,
      updateJobErrorMap_find? s0.db msg now jobId r0 hdb]
  · have harg : ((1000 : ℚ) - (400 : ℚ)) / (1000 : ℚ) * 100 * 100 + 1 / 2
        = ((12001 : ℤ) : ℚ) / ((2 : ℕ) : ℚ) := by
      norm_num
    rw [h6000, round2, round_eq, harg, Rat.floor_intCast_div_natCast]
    norm_num

/-- Witness for C8_ratio_binary64: 1000-byte input, 400-byte output,
stored ratio 6000 hundredths = 60.00 percent. -/
theorem C8_ratio_binary64_witness :
    (0 < 1000 ∧ exRec.original_size = some 1000)
      ∧ ((compressPdfAsync envOkA exState "j1" "uploads/in1.pdf" "a.pdf" 5).toOption.map
            (fun s => (ratioOf s.db "j1", originalSizeOf s.db "j1"))
          = some (some (some (ratioHundredths 1000 400)), some (some 1000))
        ∧ (compressPdfAsync envFailA exState "j1" "uploads/in1.pdf" "a.pdf" 5).toOption.map
            (fun s => ratioOf s.db "j1") = some (some exRec.compression_ratio)
        ∧ ratioHundredths 1000 400 = 6000
        ∧ ((ratioHundredths 1000 400 : ℚ) / 100
            = round2 (((1000 : ℚ) - (400 : ℚ)) / (1000 : ℚ) * 100))) :=
  ⟨⟨by decide, rfl⟩, C8_ratio_binary64 envOkA envFailA exState "j1" "uploads/in1.pdf" "a.pdf"
    "gs exited 1" 5 400 1000 exRec (by decide) rfl rfl rfl rfl rfl rfl rfl
    (by decide) (by decide) (by decide) (by decide)⟩

theorem isUnlinkOf_successFetchLog (p : String) (fo : FetchOutcome) (j : String) :
    isUnlinkOf p (successFetchLog fo j) = false := by
  cases fo <;> rfl

theorem isWebhookPost_successFetchLog (fo : FetchOutcome) (j : String) :
    isWebhookPost (successFetchLog fo j) = false := by
  cases fo <;> rfl

/-- Claim C4 counterexample: a failure-path run (output created, then the
input stat throws) removes the output file at trace index 4 and only
then attempts the webhook POST at index 5, so delivery does not precede
output cleanup. -/
theorem C4_counterexample :
    (compressPdfAsync envOkA c4state0 "j1" "uploads/in1.pdf" "a.pdf" 5).toOption.map
        (fun s => (s.trace.findIdx? (isUnlinkOf "uploads/compressed_5_a.pdf"),
          s.trace.findIdx? isWebhookPost))
      = some (some 4, some 5) := by
  decide

/-- Claim C4 (amended): the record-store mutation precedes the webhook
attempt on both paths; but on the failure path the file cleanup (here
the output unlink) precedes the webhook attempt, and on the success path
the output file is never unlinked at all (the input is unlinked between
the store mutation and the webhook). -/
theorem C4_ordering (env evB : Env) (s0 sB : SysState)
    (jobId ip name jobIdB ipB nameB : String)
    (now n osize nowB nB : Nat) (r0 r0B : JobRecord)
    (hexec : env.exec = .ok (some n))
    (hstore : env.storeFails = false) (hlookup : env.lookupFails = false)
    (hne : (outputPathOf now name == ip) = false)
    (hin : List.find? (fun e => e.1 == ip) s0.fs = some (ip, osize))
    (hout : List.find? (fun e => e.1 == outputPathOf now name) s0.fs = none)
    (hdb : List.find? (fun r => r.job_id == jobId) s0.db = some r0)
    (hexecB : evB.exec = .ok (some nB))
    (hstoreB : evB.storeFails = false) (hlookupB : evB.lookupFails = false)
    (hneB : (outputPathOf nowB nameB == ipB) = false)
    (hinB : List.find? (fun e => e.1 == ipB) sB.fs = none)
    (houtB : List.find? (fun e => e.1 == outputPathOf nowB nameB) sB.fs = none)
    (hdbB : List.find? (fun r => r.job_id == jobIdB) sB.db = some r0B) :
    (compressPdfAsync env s0 jobId ip name now).toOption.map
        (fun s => (s.trace, (s.trace.filter (isUnlinkOf (outputPathOf now name))).length))
      = some ((s0.trace
          ++ [Event.log "info" ("Starting PDF compression for job " ++ jobId)]
          ++ [Event.execCmd (gsCommandOf (outputPathOf now name) ip)]
          ++ [Event.dbCompleted jobId]
          ++ [Event.unlink ip]
          ++ [Event.webhookPost r0.webhook_url (Payload.completedPayload
                r0.job_id r0.original_filename (outputFilenameOf now name)
                r0.original_size (some n) (some (ratioHundredths osize n)) n (some now))]
          ++ [successFetchLog env.fetch1 jobId]
          ++ [Event.log "info" ("PDF compression completed for job " ++ jobId)],
          (s0.trace.filter (isUnlinkOf (outputPathOf now name))).length))
    ∧ (compressPdfAsync evB sB jobIdB ipB nameB nowB).toOption.map (fun s => s.trace)
      = some (sB.trace
          ++ [Event.log "info" ("Starting PDF compression for job " ++ jobIdB)]
          ++ [Event.execCmd (gsCommandOf (outputPathOf nowB nameB) ipB)]
          ++ [Event.log "error" ("PDF compression failed for job " ++ jobIdB ++ ": " ++
                ("ENOENT: no such file or directory, stat " ++ ipB))]
          ++ [Event.dbFailed jobIdB]
          ++ [Event.unlink (outputPathOf nowB nameB)]
          ++ [Event.webhookPost r0B.webhook_url (Payload.failedPayload jobIdB
                ("ENOENT: no such file or directory, stat " ++ ipB))]
          ++ errorFetchTail evB.fetch1 jobIdB) := by
  have hne2 : (ip == outputPathOf now name) = false := by
    rw [beq_eq_false_iff_ne] at hne ⊢
    exact fun h => hne h.symm
  constructor
  · rw [run_success env s0 jobId ip name now n osize r0 hexec hstore hlookup hne hin hout hdb]
    cases hf : env.fetch1 <;>
      simp [Except.toOption, List.filter_append, isUnlinkOf, hne2, successFetchLog]
  · have hfindB : List.find? (fun e => e.1 == ipB)
        (sB.fs ++ [(outputPathOf nowB nameB, nB)]) = none := by
      rw [find?_append_of_none hinB]
      simp [List.find?_cons, hneB]
    rw [run_statFailInput evB sB jobIdB ipB nameB nowB nB hexecB hinB hneB]
    rw [catchBlock_eval_outOnly evB
      { db := sB.db, fs := sB.fs ++ [(outputPathOf nowB nameB, nB)],
        trace := sB.trace
          ++ [Event.log "info" ("Starting PDF compression for job " ++ jobIdB)]
          ++ [Event.execCmd (gsCommandOf (outputPathOf nowB nameB) ipB)] }
      jobIdB ipB (outputPathOf nowB nameB)
      ("ENOENT: no such file or directory, stat " ++ ipB) nowB r0B
      hstoreB hlookupB (existsSync_of_find?_none hfindB)
      (existsSync_append_self sB.fs (outputPathOf nowB nameB) nB) hdbB]
    rfl

/-- Witness for C4_ordering at a concrete success run and a concrete
failure run with the output present. -/
theorem C4_ordering_witness :
    ((compressPdfAsync envOkA exState "j1" "uploads/in1.pdf" "a.pdf" 5).toOption.map
        (fun s => (s.trace, (s.trace.filter (isUnlinkOf (outputPathOf 5 "a.pdf"))).length))
      = some (([]
          ++ [Event.log "info" ("Starting PDF compression for job " ++ "j1")]
          ++ [Event.execCmd (gsCommandOf (outputPathOf 5 "a.pdf") "uploads/in1.pdf")]
          ++ [Event.dbCompleted "j1"]
          ++ [Event.unlink "uploads/in1.pdf"]
          ++ [Event.webhookPost exRec.webhook_url (Payload.completedPayload
                exRec.job_id exRec.original_filename (outputFilenameOf 5 "a.pdf")
                exRec.original_size (some 400) (some (ratioHundredths 1000 400)) 400 (some 5))]
          ++ [successFetchLog envOkA.fetch1 "j1"]
          ++ [Event.log "info" ("PDF compression completed for job " ++ "j1")],
          (([] : List Event).filter (isUnlinkOf (outputPathOf 5 "a.pdf"))).length)))
    ∧ (compressPdfAsync envOkA c4state0 "j1" "uploads/in1.pdf" "a.pdf" 5).toOption.map
        (fun s => s.trace)
      = some ([]
          ++ [Event.log "info" ("Starting PDF compression for job " ++ "j1")]
          ++ [Event.execCmd (gsCommandOf (outputPathOf 5 "a.pdf") "uploads/in1.pdf")]
          ++ [Event.log "error" ("PDF compression failed for job " ++ "j1" ++ ": " ++
                ("ENOENT: no such file or directory, stat " ++ "uploads/in1.pdf"))]
          ++ [Event.dbFailed "j1"]
          ++ [Event.unlink (outputPathOf 5 "a.pdf")]
          ++ [Event.webhookPost exRec.webhook_url (Payload.failedPayload "j1"
                ("ENOENT: no such file or directory, stat " ++ "uploads/in1.pdf"))]
          ++ errorFetchTail envOkA.fetch1 "j1") :=
  C4_ordering envOkA envOkA exState c4state0 "j1" "uploads/in1.pdf" "a.pdf"
    "j1" "uploads/in1.pdf" "a.pdf" 5 400 1000 5 400 exRec exRec
    rfl rfl rfl (by decide) (by decide) (by decide) (by decide)
    rfl rfl rfl (by decide) (by decide) (by decide) (by decide)

/-- Claim C5 counterexample: for a failed job whose error-webhook POST
returns HTTP 500, the job keeps status failed, exactly one POST is
attempted and the run resolves, but the delivery failure is NOT logged
(the error-webhook path never inspects the response). -/
theorem C5_counterexample :
    (compressPdfAsync envFailNon2xx exState "j1" "uploads/in1.pdf" "a.pdf" 5).toOption.map
        (fun s => (statusOf s.db "j1", postCount s.trace,
          (s.trace.filter isDeliveryFailureLog).length))
      = some (some "failed", 1, 0) := by
  decide

/-- Claim C5 (amended): a webhook POST outcome never changes the stored
terminal status, is attempted exactly once, and never rejects the run;
the delivery failure is logged on the success path (both non-2xx and
thrown) and on the failure path for a thrown error, but a non-2xx
response to the error webhook is silently ignored (no log). -/
theorem C5_delivery_failure (eS1 eS2 eF1 eF2 : Env) (s0 : SysState)
    (jobId ip name m1 m2 msg msg2 : String) (now n osize c c2 : Nat) (r0 : JobRecord)
    (hS1 : eS1.exec = .ok (some n)) (hS1f : eS1.fetch1 = .non2xx c)
    (hS1s : eS1.storeFails = false) (hS1l : eS1.lookupFails = false)
    (hS2 : eS2.exec = .ok (some n)) (hS2f : eS2.fetch1 = .throwErr m1)
    (hS2s : eS2.storeFails = false) (hS2l : eS2.lookupFails = false)
    (hF1 : eF1.exec = .fail msg) (hF1f : eF1.fetch1 = .throwErr m2)
    (hF1s : eF1.storeFails = false) (hF1l : eF1.lookupFails = false)
    (hF2 : eF2.exec = .fail msg2) (hF2f : eF2.fetch1 = .non2xx c2)
    (hF2s : eF2.storeFails = false) (hF2l : eF2.lookupFails = false)
    (hne : (outputPathOf now name == ip) = false)
    (hin : List.find? (fun e => e.1 == ip) s0.fs = some (ip, osize))
    (hout : List.find? (fun e => e.1 == outputPathOf now name) s0.fs = none)
    (hdb : List.find? (fun r => r.job_id == jobId) s0.db = some r0)
    (htr : s0.trace = []) :
    (compressPdfAsync eS1 s0 jobId ip name now).toOption.map
        (fun s => (statusOf s.db jobId, postCount s.trace, s.trace.getLast?))
      = some (some "completed", 1,
          some (Event.log "info" ("PDF compression completed for job " ++ jobId)))
    ∧ (compressPdfAsync eS1 s0 jobId ip name now).toOption.map
        (fun s => s.trace.contains (Event.log "error"
          ("Webhook failed for job " ++ jobId ++ ": " ++ toString c)))
      = some true
    ∧ (compressPdfAsync eS2 s0 jobId ip name now).toOption.map
        (fun s => (statusOf s.db jobId, postCount s.trace,
          s.trace.contains (Event.log "error"
            ("Webhook error for job " ++ jobId ++ ": " ++ m1))))
      = some (some "completed", 1, true)
    ∧ (compressPdfAsync eF1 s0 jobId ip name now).toOption.map
        (fun s => (statusOf s.db jobId, postCount s.trace,
          s.trace.contains (Event.log "error"
            ("Error webhook failed for job " ++ jobId ++ ": " ++ m2))))
      = some (some "failed", 1, true)
    ∧ (compressPdfAsync eF2 s0 jobId ip name now).toOption.map
        (fun s => (statusOf s.db jobId, postCount s.trace, s.trace.getLast?))
      = some (some "failed", 1,
          some (Event.webhookPost r0.webhook_url (Payload.failedPayload jobId msg2))) := by
  have hipS : existsSync s0.fs ip = true := existsSync_of_find?_some hin
  have hopS : existsSync s0.fs (outputPathOf now name) = false := existsSync_of_find?_none hout
  refine ⟨?_, ?_, ?_, ?_, ?_⟩
  · rw [run_success eS1 s0 jobId ip name now n osize r0 hS1 hS1s hS1l hne hin hout hdb]
    rw [hS1f]
    simp [Except.toOption, statusOf, postCount, htr, List.filter_append, successFetchLog,
      isWebhookPost,
      updateJobMap_find? s0.db (outputFilenameOf now name) n (ratioHundredths osize n) now jobId r0 hdb]
  · rw [run_success eS1 s0 jobId ip name now n osize r0 hS1 hS1s hS1l hne hin hout hdb]
    rw [hS1f]
    simp [Except.toOption, htr, successFetchLog]
  · rw [run_success eS2 s0 jobId ip name now n osize r0 hS2 hS2s hS2l hne hin hout hdb]
    rw [hS2f]
    simp [Except.toOption, statusOf, postCount, htr, List.filter_append, successFetchLog,
      isWebhookPost,
      updateJobMap_find? s0.db (outputFilenameOf now name) n (ratioHundredths osize n) now jobId r0 hdb]
  · rw [run_execFail eF1 s0 jobId ip name msg now hF1]
    rw [catchBlock_eval_std eF1
      (addTrace (addTrace s0 (.log "info" ("Starting PDF compression for job " ++ jobId)))
        (.execCmd (gsCommandOf (outputPathOf now name) ip)))
      jobId ip (outputPathOf now name) msg now r0 hF1s hF1l hipS hopS hdb]
    rw [hF1f]
    simp [Except.toOption, statusOf, postCount, htr, addTrace, List.filter_append,
      errorFetchTail, isWebhookPost,
      updateJobErrorMap_find? s0.db msg now jobId r0 hdb]
  · rw [run_execFail eF2 s0 jobId ip name msg2 now hF2]
    rw [catchBlock_eval_std eF2
      (addTrace (addTrace s0 (.log "info" ("Starting PDF compression for job " ++ jobId)))
        (.execCmd (gsCommandOf (outputPathOf now name) ip)))
      jobId ip (outputPathOf now name) msg2 now r0 hF2s hF2l hipS hopS hdb]
    rw [hF2f]
    simp [Except.toOption, statusOf, postCount, htr, addTrace, List.filter_append,
      errorFetchTail, isWebhookPost,
      updateJobErrorMap_find? s0.db msg2 now jobId r0 hdb]

/-- Witness for C5_delivery_failure at concrete runs: HTTP 500 and a
thrown network error against both terminal paths. -/
theorem C5_delivery_failure_witness :
    (envOkNon2xx.fetch1 = .non2xx 500 ∧ envFailNon2xx.fetch1 = .non2xx 500)
      ∧ (compressPdfAsync envOkNon2xx exState "j1" "uploads/in1.pdf" "a.pdf" 5).toOption.map
          (fun s => (statusOf s.db "j1", postCount s.trace, s.trace.getLast?))
        = some (some "completed", 1,
            some (Event.log "info" ("PDF compression completed for job " ++ "j1"))) := by
  constructor
  · exact ⟨rfl, rfl⟩
  · exact (C5_delivery_failure envOkNon2xx envOkThrow envFailThrow envFailNon2xx exState
      "j1" "uploads/in1.pdf" "a.pdf" "ETIMEDOUT" "ECONNREFUSED" "gs exited 1" "gs exited 1"
      5 400 1000 500 500 exRec
      rfl rfl rfl rfl rfl rfl rfl rfl rfl rfl rfl rfl rfl rfl rfl rfl
      (by decide) (by decide) (by decide) (by decide) rfl).1

/-- Claim C10: on the failure path, when the record store has no row for
the jobId no error-webhook POST is attempted at all; a thrown lookup
error or a thrown fetch error is caught and logged; in each case the
run resolves (the promise does not reject) once the failed-update has
succeeded. -/
theorem C10_error_webhook_guard (eA eB eC : Env) (sA sB : SysState)
    (jobId ip name msg mfetch : String) (now osize : Nat) (r0 : JobRecord)
    (hA : eA.exec = .fail msg) (hAs : eA.storeFails = false) (hAl : eA.lookupFails = false)
    (hB : eB.exec = .fail msg) (hBs : eB.storeFails = false) (hBl : eB.lookupFails = true)
    (hC : eC.exec = .fail msg) (hCf : eC.fetch1 = .throwErr mfetch)
    (hCs : eC.storeFails = false) (hCl : eC.lookupFails = false)
    (hinA : List.find? (fun e => e.1 == ip) sA.fs = some (ip, osize))
    (houtA : List.find? (fun e => e.1 == outputPathOf now name) sA.fs = none)
    (hdbA : List.find? (fun r => r.job_id == jobId) sA.db = none)
    (htrA : sA.trace = [])
    (hinB : List.find? (fun e => e.1 == ip) sB.fs = some (ip, osize))
    (houtB : List.find? (fun e => e.1 == outputPathOf now name) sB.fs = none)
    (hdbB : List.find? (fun r => r.job_id == jobId) sB.db = some r0)
    (htrB : sB.trace = []) :
    (compressPdfAsync eA sA jobId ip name now).toOption.map
        (fun s => (postCount s.trace, statusOf s.db jobId))
      = some (0, none)
    ∧ (compressPdfAsync eB sB jobId ip name now).toOption.map
        (fun s => (postCount s.trace, s.trace.getLast?))
      = some (0, some (Event.log "error" ("Error webhook failed for job " ++ jobId ++ ": " ++
          "SqliteError: unable to read job")))
    ∧ (compressPdfAsync eC sB jobId ip name now).toOption.map
        (fun s => (postCount s.trace, s.trace.getLast?))
      = some (1, some (Event.log "error"
          ("Error webhook failed for job " ++ jobId ++ ": " ++ mfetch))) := by
  refine ⟨?_, ?_, ?_⟩
  · rw [run_execFail eA sA jobId ip name msg now hA]
    rw [catchBlock_eval_noRow eA
      (addTrace (addTrace sA (.log "info" ("Starting PDF compression for job " ++ jobId)))
        (.execCmd (gsCommandOf (outputPathOf now name) ip)))
      jobId ip (outputPathOf now name) msg now hAs hAl
      (existsSync_of_find?_some hinA) (existsSync_of_find?_none houtA) hdbA]
    simp [Except.toOption, statusOf, postCount, htrA, addTrace, List.filter_append,
      isWebhookPost, hdbA]
  · rw [run_execFail eB sB jobId ip name msg now hB]
    rw [catchBlock_eval_lookupFail eB
      (addTrace (addTrace sB (.log "info" ("Starting PDF compression for job " ++ jobId)))
        (.execCmd (gsCommandOf (outputPathOf now name) ip)))
      jobId ip (outputPathOf now name) msg now hBs hBl
      (existsSync_of_find?_some hinB) (existsSync_of_find?_none houtB)]
    simp [Except.toOption, postCount, htrB, addTrace, List.filter_append, isWebhookPost]
  · rw [run_execFail eC sB jobId ip name msg now hC]
    rw [catchBlock_eval_std eC
      (addTrace (addTrace sB (.log "info" ("Starting PDF compression for job " ++ jobId)))
        (.execCmd (gsCommandOf (outputPathOf now name) ip)))
      jobId ip (outputPathOf now name) msg now r0 hCs hCl
      (existsSync_of_find?_some hinB) (existsSync_of_find?_none houtB) hdbB]
    rw [hCf]
    simp [Except.toOption, postCount, htrB, addTrace, List.filter_append, isWebhookPost,
      errorFetchTail]

/-- Witness for C10_error_webhook_guard at concrete runs. -/
theorem C10_error_webhook_guard_witness :
    (List.find? (fun r => r.job_id == "j1") c10stateNoRow.db = none
      ∧ envFailLookup.lookupFails = true ∧ envFailThrow.fetch1 = .throwErr "ECONNREFUSED")
      ∧ (compressPdfAsync envFailA c10stateNoRow "j1" "uploads/in1.pdf" "a.pdf" 5).toOption.map
          (fun s => (postCount s.trace, statusOf s.db "j1"))
        = some (0, none) := by
  constructor
  · exact ⟨rfl, rfl, rfl⟩
  · exact (C10_error_webhook_guard envFailA envFailLookup envFailThrow c10stateNoRow exState
      "j1" "uploads/in1.pdf" "a.pdf" "gs exited 1" "ECONNREFUSED" 5 1000 exRec
      rfl rfl rfl rfl rfl rfl rfl rfl rfl rfl
      (by decide) (by decide) (by decide) rfl
      (by decide) (by decide) (by decide) rfl).1

end BaileysPdf
